import Mathlib

/-!
# FoodTrackingSystem: static/js/script.js

A shallow embedding of the page script and of the part of the browser it talks to:
the document (elements in document order, with parent links), the listener table,
the timer queue, the dialogs shown and the forms submitted.
-/

namespace FoodTracking

/-! ## The document -/

/-- A JavaScript exception. The script can only raise a TypeError (member access on null). -/
inductive JsError where
  | typeError (msg : String)
deriving DecidableEq, Repr

/-- One element of the document. Only the attributes and properties the script reads or
writes are kept: local name, id, class list, type attribute, the checked property and the
inline style.display. parent is the index of the parent element in the document. -/
structure Element where
  localName : String
  id : String
  classList : List String
  type : String
  checked : Bool
  display : String
  parent : Option Nat
deriving DecidableEq, Repr

/-- The document: its elements in document order. An element reference is an index. -/
abbrev Document := List Element

/-- document.getElementById: the first element in document order with that id, or null. -/
def getElementById : Document → String → Option Nat
  | [], _ => none
  | e :: rest, id => if e.id = id then some 0 else (getElementById rest id).map (· + 1)

/-- Walk up the parent links, at most fuel steps. -/
def ancestorsFrom (doc : Document) : Nat → Option Nat → List Nat
  | 0, _ => []
  | _ + 1, none => []
  | fuel + 1, some i =>
    match doc[i]? with
    | none => []
    | some e => i :: ancestorsFrom doc fuel e.parent

/-- The ancestors of element i, nearest first. -/
def ancestors (doc : Document) (i : Nat) : List Nat :=
  match doc[i]? with
  | none => []
  | some e => ancestorsFrom doc doc.length e.parent

/-- A compound selector: each present component must match. -/
structure Compound where
  localName : Option String
  id : Option String
  cls : Option String
  type : Option String
deriving DecidableEq, Repr

/-- Does the element match the compound selector? -/
def Compound.test (s : Compound) (e : Element) : Bool :=
  (match s.localName with | none => true | some n => decide (e.localName = n)) &&
  (match s.id with | none => true | some n => decide (e.id = n)) &&
  (match s.cls with | none => true | some c => decide (c ∈ e.classList)) &&
  (match s.type with | none => true | some t => decide (e.type = t))

/-- The selectors the script uses: a compound, or a compound under an ancestor compound
(the descendant combinator). -/
inductive Selector where
  | compound (s : Compound)
  | descendant (anc : Compound) (s : Compound)
deriving DecidableEq, Repr

/-- Does element i of the document match the selector? -/
def Selector.test (doc : Document) (i : Nat) : Selector → Bool
  | .compound s => match doc[i]? with
    | none => false
    | some e => s.test e
  | .descendant anc s => match doc[i]? with
    | none => false
    | some e => s.test e &&
        (ancestors doc i).any (fun a => match doc[a]? with
          | none => false
          | some ea => anc.test ea)

/-- document.querySelectorAll: every matching element, in document order. -/
def querySelectorAll (doc : Document) (sel : Selector) : List Nat :=
  (List.range doc.length).filter (fun i => sel.test doc i)

/-- The selector of line 22: a checkbox input below an element of id meal_options. -/
def mealCheckboxSelector : Selector :=
  .descendant ⟨none, some "meal_options", none, none⟩ ⟨some "input", none, none, some "checkbox"⟩

/-- The selector of line 43: an element of class alert. -/
def alertSelector : Selector :=
  .compound ⟨none, none, some "alert", none⟩

/-- Assignment el.checked = b on an element reference. -/
def setChecked (doc : Document) (i : Nat) (b : Bool) : Document :=
  match doc[i]? with
  | none => doc
  | some e => doc.set i { e with checked := b }

/-- Read el.checked. -/
def isChecked (doc : Document) (i : Nat) : Bool :=
  match doc[i]? with
  | none => false
  | some e => e.checked

/-- Read el.style.display. -/
def displayOf (doc : Document) (i : Nat) : String :=
  match doc[i]? with
  | none => ""
  | some e => e.display

/-- Assignment el.style.display = v on an element reference. -/
def setDisplay (doc : Document) (i : Nat) (v : String) : Document :=
  match doc[i]? with
  | none => doc
  | some e => doc.set i { e with display := v }

/-- Assignment el.style.display = v through a nullable reference: a TypeError on null. -/
def setStyleDisplay (doc : Document) (el : Option Nat) (v : String) : Except JsError Document :=
  match el with
  | none => .error (.typeError "Cannot read properties of null (reading style)")
  | some i => .ok (setDisplay doc i v)

/-- What the script never writes: the element with checked and style.display blanked. -/
def Element.frame (e : Element) : Element :=
  { e with checked := false, display := "" }

/-- Two documents with the same elements up to checked and style.display. -/
def SameFrame (d1 d2 : Document) : Prop :=
  ∀ j : Nat, (d1[j]?).map Element.frame = (d2[j]?).map Element.frame

/-! ## The page -/

/-- The two change listeners of the script. Each closes over the variable mealOptions. -/
inductive Callback where
  | onStatusComing (mealOptions : Option Nat)
  | onStatusNotComing (mealOptions : Option Nat)
deriving DecidableEq, Repr

/-- A registered event listener. -/
structure Listener where
  target : Nat
  event : String
  callback : Callback
deriving DecidableEq, Repr

/-- A pending one-shot timer: its delay, the clock value it is due at, and the alert
element its callback closes over. -/
structure Timer where
  delay : Nat
  due : Nat
  alert : Nat
deriving DecidableEq, Repr

/-- The page state. clock is in milliseconds; dialogs are the confirm messages shown,
submitted the forms submitted, closed the alerts closed through the widget, oldest first. -/
structure Page where
  document : Document
  listeners : List Listener
  window : List String
  timers : List Timer
  clock : Nat
  dialogs : List String
  submitted : List Nat
  closed : List Nat
deriving DecidableEq, Repr

/-- The page as the load event finds it. -/
def Page.fresh (doc : Document) : Page :=
  ⟨doc, [], [], [], 0, [], [], []⟩

/-- The call el.addEventListener(event, cb) through a nullable reference. -/
def addEventListener (p : Page) (el : Option Nat) (event : String) (cb : Callback) :
    Except JsError Page :=
  match el with
  | none => .error (.typeError "Cannot read properties of null (reading addEventListener)")
  | some i => .ok { p with listeners := p.listeners ++ [⟨i, event, cb⟩] }

/-- The call setTimeout(cb, delay) where cb closes the given alert. -/
def setTimeout (p : Page) (alert : Nat) (delay : Nat) : Page :=
  { p with timers := p.timers ++ [⟨delay, p.clock + delay, alert⟩] }

/-- Lines 12-16: the change listener of statusComing. -/
def statusComingChange (mealOptions : Option Nat) (this : Nat) (doc : Document) :
    Except JsError Document :=
  if isChecked doc this then
    setStyleDisplay doc mealOptions "block"
  else
    .ok doc

/-- Lines 18-26: the change listener of statusNotComing. -/
def statusNotComingChange (mealOptions : Option Nat) (this : Nat) (doc : Document) :
    Except JsError Document :=
  if isChecked doc this then
    match setStyleDisplay doc mealOptions "none" with
    | .error e => .error e
    | .ok doc1 =>
      .ok ((querySelectorAll doc1 mealCheckboxSelector).foldl
        (fun d checkbox => setChecked d checkbox false) doc1)
  else
    .ok doc

/-- Run a listener callback with the given this. -/
def Callback.run : Callback → Nat → Document → Except JsError Document
  | .onStatusComing m, this, doc => statusComingChange m this doc
  | .onStatusNotComing m, this, doc => statusNotComingChange m this doc

/-- Run listeners in registration order. An exception raised by a listener is kept as the
result, so that a result ok says that no listener raised one. -/
def runListeners : List Listener → Nat → Document → Except JsError Document
  | [], _, doc => .ok doc
  | l :: ls, this, doc =>
    match l.callback.run this doc with
    | .error e => .error e
    | .ok doc1 => runListeners ls this doc1

/-- Dispatch an event at an element: the listeners registered on that element for that
event run in registration order. -/
def dispatchEvent (p : Page) (target : Nat) (event : String) : Except JsError Page :=
  match runListeners (p.listeners.filter (fun l => l.target = target ∧ l.event = event))
      target p.document with
  | .error e => .error e
  | .ok doc => .ok { p with document := doc }

/-- Lines 3-27: the attendance/meal toggle section of the load handler. -/
def attendanceToggle (p : Page) : Except JsError Page :=
  let statusComing := getElementById p.document "status_coming"
  let statusNotComing := getElementById p.document "status_not_coming"
  let mealOptions := getElementById p.document "meal_options"
  if statusComing.isSome && statusNotComing.isSome && mealOptions.isSome then
    match setStyleDisplay p.document mealOptions "none" with
    | .error e => .error e
    | .ok doc =>
      match addEventListener { p with document := doc } statusComing "change"
          (.onStatusComing mealOptions) with
      | .error e => .error e
      | .ok p1 =>
        addEventListener p1 statusNotComing "change" (.onStatusNotComing mealOptions)
  else
    .ok p

/-- Lines 30-40: the two functions are attached to window. -/
def defineResetFunctions (p : Page) : Page :=
  { p with window := p.window ++ ["confirmAllReset", "confirmDateReset"] }

/-- Lines 43-49: one timer of 5000 ms per element of class alert. -/
def flashAutoDismiss (p : Page) : Page :=
  let flashMessages := querySelectorAll p.document alertSelector
  flashMessages.foldl (fun q alert => setTimeout q alert 5000) p

/-- Lines 1-50: the DOMContentLoaded handler. -/
def domContentLoaded (p : Page) : Except JsError Page :=
  match attendanceToggle p with
  | .error e => .error e
  | .ok p1 => .ok (flashAutoDismiss (defineResetFunctions p1))

/-- The message of confirmAllReset (line 31). -/
def allResetMessage : String :=
  "Are you sure you want to reset ALL attendance data across ALL dates? This action cannot be undone."

/-- The message of confirmDateReset (line 37): the template with the date interpolated. -/
def dateResetMessage (date : String) : String :=
  "Are you sure you want to reset attendance data for " ++ date ++
    " only? This action cannot be undone."

/-- The call confirm(msg): the dialog is shown; the answer comes from the user. -/
def confirm (p : Page) (msg : String) : Page :=
  { p with dialogs := p.dialogs ++ [msg] }

/-- The call form.submit() through a nullable reference: a TypeError on null. -/
def submit (p : Page) (form : Option Nat) : Except JsError Page :=
  match form with
  | none => .error (.typeError "Cannot read properties of null (reading submit)")
  | some f => .ok { p with submitted := p.submitted ++ [f] }

/-- Lines 30-34: window.confirmAllReset; answer is what the user chose in the dialog. -/
def confirmAllReset (answer : Bool) (p : Page) : Except JsError Page :=
  let p1 := confirm p allResetMessage
  if answer then
    submit p1 (getElementById p1.document "resetAllForm")
  else
    .ok p1

/-- Lines 36-40: window.confirmDateReset; answer is what the user chose in the dialog. -/
def confirmDateReset (date : String) (answer : Bool) (p : Page) : Except JsError Page :=
  let p1 := confirm p (dateResetMessage date)
  if answer then
    submit p1 (getElementById p1.document "resetCurrentForm")
  else
    .ok p1

/-- Lines 45-48: a timer callback; the widget closes the alert it was built over. -/
def closeAlert (p : Page) (alert : Nat) : Page :=
  { p with closed := p.closed ++ [alert] }

/-- The event loop lets dt milliseconds pass: every timer that is due fires, in the order
of scheduling, and is removed (timers are one-shot); a timer never fires before it is due. -/
def advance (p : Page) (dt : Nat) : Page :=
  let now := p.clock + dt
  let fired := p.timers.filter (fun t => decide (t.due ≤ now))
  let pending := p.timers.filter (fun t => !decide (t.due ≤ now))
  fired.foldl (fun q t => closeAlert q t.alert) { p with clock := now, timers := pending }

/-! ## User events on the attendance controls -/

/-- Is c a checkbox input below the element m? -/
def isCheckboxInside (doc : Document) (m : Nat) (c : Nat) : Bool :=
  match doc[c]? with
  | none => false
  | some e => decide (e.localName = "input") && decide (e.type = "checkbox") &&
      decide (m ∈ ancestors doc c)

/-- Modelled from the spec: the page markup is not among the sources; the data model of the spec
says the two attendance controls are mutually exclusive. A change event on one of them,
as the browser delivers it: the control is checked, the other one is not, and the change
listeners of the control run. -/
def selectRadio (p : Page) (id : String) (other : String) : Except JsError Page :=
  match getElementById p.document id with
  | none => .ok p
  | some r =>
    let doc1 := setChecked p.document r true
    let doc2 := match getElementById p.document other with
      | none => doc1
      | some o => setChecked doc1 o false
    dispatchEvent { p with document := doc2 } r "change"

/-- The user events on the attendance form: the two attendance choices, and a click on a
checkbox of the meal panel. -/
inductive UserEvent where
  | selectComing
  | selectNotComing
  | clickMeal (c : Nat)
deriving DecidableEq, Repr

/-- A click on a meal checkbox: it flips when the panel is displayed; an element that is
not displayed receives no click. No listener of the script is registered on it. -/
def toggleMeal (p : Page) (c : Nat) : Page :=
  match getElementById p.document "meal_options" with
  | none => p
  | some m =>
    if isCheckboxInside p.document m c && decide (displayOf p.document m ≠ "none") then
      { p with document := setChecked p.document c (!isChecked p.document c) }
    else p

/-- One user event. -/
def UserEvent.step (p : Page) : UserEvent → Except JsError Page
  | .selectComing => selectRadio p "status_coming" "status_not_coming"
  | .selectNotComing => selectRadio p "status_not_coming" "status_coming"
  | .clickMeal c => .ok (toggleMeal p c)

/-- A sequence of user events, stopping at the first exception. -/
def runEvents : List UserEvent → Page → Except JsError Page
  | [], p => .ok p
  | e :: es, p =>
    match e.step p with
    | .error err => .error err
    | .ok p1 => runEvents es p1

/-- Is element i a radio input? -/
def isRadio (doc : Document) (i : Nat) : Bool :=
  match doc[i]? with
  | none => false
  | some e => decide (e.localName = "input") && decide (e.type = "radio")

/-- Modelled from the spec: the page markup is not among the sources; the spec describes
the attendance fixture as two radio inputs and the panel. The three ids resolve to sc, nc
and mo, and the two attendance controls are radio inputs. -/
def RadioFixture (doc : Document) (sc nc mo : Nat) : Prop :=
  getElementById doc "status_coming" = some sc ∧
  getElementById doc "status_not_coming" = some nc ∧
  getElementById doc "meal_options" = some mo ∧
  isRadio doc sc = true ∧ isRadio doc nc = true

/-- A page on which the load handler has wired the two change listeners. -/
def Wired (sc nc mo : Nat) (p : Page) : Prop :=
  p.listeners = [⟨sc, "change", .onStatusComing (some mo)⟩,
    ⟨nc, "change", .onStatusNotComing (some mo)⟩] ∧
  RadioFixture p.document sc nc mo

/-- The consistency rule of the data model: when the not-coming control is checked, the
panel is hidden and every checkbox inside it is unchecked. -/
def Consistent (nc mo : Nat) (doc : Document) : Prop :=
  isChecked doc nc = true →
    displayOf doc mo = "none" ∧ ∀ c, isCheckboxInside doc mo c = true → isChecked doc c = false

/-- Is the event one of the two attendance choices? -/
def UserEvent.isAttendance : UserEvent → Bool
  | .selectComing => true
  | .selectNotComing => true
  | .clickMeal _ => false

/-! ## Sample documents -/

/-- An attendance page: a form holding the two radios and the meal panel with two
checkboxes and a text input, two flash messages, and the two reset forms. The not-coming
radio and the first meal checkbox are checked. -/
def samplePage : Document :=
  [ ⟨"form", "attendance", [], "", false, "", none⟩,
    ⟨"input", "status_coming", ["form-check-input"], "radio", false, "", some 0⟩,
    ⟨"input", "status_not_coming", ["form-check-input"], "radio", true, "", some 0⟩,
    ⟨"div", "meal_options", [], "", false, "block", some 0⟩,
    ⟨"input", "breakfast", [], "checkbox", true, "", some 3⟩,
    ⟨"input", "lunch", [], "checkbox", false, "", some 3⟩,
    ⟨"input", "notes", [], "text", false, "", some 3⟩,
    ⟨"div", "", ["alert", "alert-success"], "", false, "", none⟩,
    ⟨"div", "", ["alert", "alert-danger"], "", false, "", none⟩,
    ⟨"form", "resetAllForm", [], "", false, "", none⟩,
    ⟨"form", "resetCurrentForm", [], "", false, "", none⟩ ]

/-- The sample page with the coming radio checked instead. -/
def samplePageComing : Document :=
  setChecked (setChecked samplePage 1 true) 2 false

/-- An admin page: the meal panel alone of the three, and the reset-all form only. -/
def sampleAdminPage : Document :=
  [ ⟨"div", "meal_options", [], "", false, "block", none⟩,
    ⟨"input", "lunch", [], "checkbox", true, "", some 0⟩,
    ⟨"form", "resetAllForm", [], "", false, "", none⟩ ]

/-! ## Lemmas on the document -/

theorem getElem?_setChecked (doc : Document) (i j : Nat) (b : Bool) :
    (setChecked doc i b)[j]? =
      if j = i then (doc[j]?).map (fun e => { e with checked := b }) else doc[j]? := by
  unfold setChecked
  cases h : doc[i]? with
  | none =>
    by_cases hj : j = i
    · subst hj; simp [h]
    · simp [hj]
  | some e =>
    obtain ⟨hi, _⟩ := List.getElem?_eq_some.mp h
    by_cases hj : j = i
    · subst hj; simp [List.getElem?_set, hi, h]
    · have hne : i ≠ j := fun hij => hj hij.symm
      simp [List.getElem?_set, hne, hj]

theorem getElem?_setDisplay (doc : Document) (i j : Nat) (v : String) :
    (setDisplay doc i v)[j]? =
      if j = i then (doc[j]?).map (fun e => { e with display := v }) else doc[j]? := by
  unfold setDisplay
  cases h : doc[i]? with
  | none =>
    by_cases hj : j = i
    · subst hj; simp [h]
    · simp [hj]
  | some e =>
    obtain ⟨hi, _⟩ := List.getElem?_eq_some.mp h
    by_cases hj : j = i
    · subst hj; simp [List.getElem?_set, hi, h]
    · have hne : i ≠ j := fun hij => hj hij.symm
      simp [List.getElem?_set, hne, hj]

theorem SameFrame.refl (d : Document) : SameFrame d d := fun _ => rfl

theorem SameFrame.trans {d1 d2 d3 : Document} (h12 : SameFrame d1 d2) (h23 : SameFrame d2 d3) :
    SameFrame d1 d3 := fun j => (h12 j).trans (h23 j)

theorem sameFrame_setChecked (doc : Document) (i : Nat) (b : Bool) :
    SameFrame (setChecked doc i b) doc := by
  intro j
  rw [getElem?_setChecked]
  by_cases hj : j = i
  · simp only [hj, if_true]
    cases doc[i]? <;> simp [Element.frame]
  · simp [hj]

theorem sameFrame_setDisplay (doc : Document) (i : Nat) (v : String) :
    SameFrame (setDisplay doc i v) doc := by
  intro j
  rw [getElem?_setDisplay]
  by_cases hj : j = i
  · simp only [hj, if_true]
    cases doc[i]? <;> simp [Element.frame]
  · simp [hj]

theorem SameFrame.length_eq {d1 d2 : Document} (h : SameFrame d1 d2) :
    d1.length = d2.length := by
  by_contra hne
  rcases Nat.lt_or_gt_of_ne hne with hlt | hgt
  · have := h d1.length
    rw [List.getElem?_eq_none (Nat.le_refl _)] at this
    obtain ⟨e, he⟩ : ∃ e, d2[d1.length]? = some e :=
      ⟨d2[d1.length], List.getElem?_eq_some.mpr ⟨hlt, rfl⟩⟩
    rw [he] at this
    simp at this
  · have := h d2.length
    rw [List.getElem?_eq_none (Nat.le_refl d2.length)] at this
    obtain ⟨e, he⟩ : ∃ e, d1[d2.length]? = some e :=
      ⟨d1[d2.length], List.getElem?_eq_some.mpr ⟨hgt, rfl⟩⟩
    rw [he] at this
    simp at this

theorem Element.frame_parent {e1 e2 : Element} (h : e1.frame = e2.frame) :
    e1.parent = e2.parent :=
  (congrArg Element.parent h : e1.frame.parent = e2.frame.parent)

theorem Element.frame_localName {e1 e2 : Element} (h : e1.frame = e2.frame) :
    e1.localName = e2.localName :=
  (congrArg Element.localName h : e1.frame.localName = e2.frame.localName)

theorem Element.frame_type {e1 e2 : Element} (h : e1.frame = e2.frame) :
    e1.type = e2.type :=
  (congrArg Element.type h : e1.frame.type = e2.frame.type)

theorem sameFrame_lookup {d1 d2 : Document} (h : SameFrame d1 d2) (j : Nat) :
    (d1[j]? = none ∧ d2[j]? = none) ∨
      ∃ e1 e2, d1[j]? = some e1 ∧ d2[j]? = some e2 ∧ e1.frame = e2.frame := by
  have hj := h j
  cases h1 : d1[j]? with
  | none =>
    cases h2 : d2[j]? with
    | none => exact Or.inl ⟨rfl, rfl⟩
    | some e2 => rw [h1, h2] at hj; simp at hj
  | some e1 =>
    cases h2 : d2[j]? with
    | none => rw [h1, h2] at hj; simp at hj
    | some e2 =>
      rw [h1, h2] at hj
      exact Or.inr ⟨e1, e2, rfl, rfl, by simpa using hj⟩

theorem sameFrame_iff_map (d1 d2 : Document) :
    SameFrame d1 d2 ↔ d1.map Element.frame = d2.map Element.frame := by
  constructor
  · intro h
    apply List.ext_getElem?
    intro n
    rw [List.getElem?_map, List.getElem?_map]
    exact h n
  · intro h j
    rw [← List.getElem?_map, ← List.getElem?_map, h]

theorem getElementById_map_frame (doc : Document) (id : String) :
    getElementById (doc.map Element.frame) id = getElementById doc id := by
  induction doc with
  | nil => rfl
  | cons e rest ih =>
    simp only [List.map_cons, getElementById, ih]
    rfl

theorem getElementById_congr {d1 d2 : Document} (h : SameFrame d1 d2) (id : String) :
    getElementById d1 id = getElementById d2 id := by
  rw [← getElementById_map_frame d1, ← getElementById_map_frame d2,
    (sameFrame_iff_map d1 d2).mp h]

theorem ancestorsFrom_congr {d1 d2 : Document} (h : SameFrame d1 d2) (fuel : Nat)
    (o : Option Nat) : ancestorsFrom d1 fuel o = ancestorsFrom d2 fuel o := by
  induction fuel generalizing o with
  | zero => simp [ancestorsFrom]
  | succ n ih =>
    cases o with
    | none => simp [ancestorsFrom]
    | some i =>
      rcases sameFrame_lookup h i with ⟨h1, h2⟩ | ⟨e1, e2, h1, h2, he⟩
      · simp [ancestorsFrom, h1, h2]
      · have hp : e1.parent = e2.parent := Element.frame_parent he
        simp [ancestorsFrom, h1, h2, hp, ih]

theorem ancestors_congr {d1 d2 : Document} (h : SameFrame d1 d2) (i : Nat) :
    ancestors d1 i = ancestors d2 i := by
  rcases sameFrame_lookup h i with ⟨h1, h2⟩ | ⟨e1, e2, h1, h2, he⟩
  · simp [ancestors, h1, h2]
  · have hp : e1.parent = e2.parent := Element.frame_parent he
    simp [ancestors, h1, h2, hp, h.length_eq, ancestorsFrom_congr h]

theorem Compound.test_frame (s : Compound) (e : Element) : s.test e.frame = s.test e := rfl

theorem Compound.test_of_frame_eq (s : Compound) {e1 e2 : Element} (h : e1.frame = e2.frame) :
    s.test e1 = s.test e2 := by
  rw [← Compound.test_frame s e1, ← Compound.test_frame s e2, h]

theorem Selector.test_sameFrame {d1 d2 : Document} (h : SameFrame d1 d2) (i : Nat)
    (sel : Selector) : sel.test d1 i = sel.test d2 i := by
  cases sel with
  | compound s =>
    rcases sameFrame_lookup h i with ⟨h1, h2⟩ | ⟨e1, e2, h1, h2, he⟩
    · simp [Selector.test, h1, h2]
    · simp [Selector.test, h1, h2, Compound.test_of_frame_eq s he]
  | descendant anc s =>
    rcases sameFrame_lookup h i with ⟨h1, h2⟩ | ⟨e1, e2, h1, h2, he⟩
    · simp [Selector.test, h1, h2]
    · have hany : ∀ l : List Nat,
          l.any (fun a => match d1[a]? with
            | none => false
            | some ea => anc.test ea) =
          l.any (fun a => match d2[a]? with
            | none => false
            | some ea => anc.test ea) := by
        intro l
        induction l with
        | nil => rfl
        | cons a l ih =>
          rcases sameFrame_lookup h a with ⟨a1, a2⟩ | ⟨x1, x2, a1, a2, hx⟩
          · simp only [List.any_cons, a1, a2, ih]
          · simp only [List.any_cons, a1, a2, ih, Compound.test_of_frame_eq anc hx]
      simp only [Selector.test, h1, h2, Compound.test_of_frame_eq s he, ancestors_congr h i, hany]

theorem querySelectorAll_congr {d1 d2 : Document} (h : SameFrame d1 d2) (sel : Selector) :
    querySelectorAll d1 sel = querySelectorAll d2 sel := by
  unfold querySelectorAll
  rw [h.length_eq]
  congr 1
  funext i
  exact Selector.test_sameFrame h i sel

theorem isCheckboxInside_congr {d1 d2 : Document} (h : SameFrame d1 d2) (m c : Nat) :
    isCheckboxInside d1 m c = isCheckboxInside d2 m c := by
  rcases sameFrame_lookup h c with ⟨h1, h2⟩ | ⟨e1, e2, h1, h2, he⟩
  · simp [isCheckboxInside, h1, h2]
  · have hn : e1.localName = e2.localName := Element.frame_localName he
    have ht : e1.type = e2.type := Element.frame_type he
    simp [isCheckboxInside, h1, h2, hn, ht, ancestors_congr h c]

theorem getElementById_some {doc : Document} {id : String} {i : Nat}
    (h : getElementById doc id = some i) : ∃ e, doc[i]? = some e ∧ e.id = id := by
  induction doc generalizing i with
  | nil => simp [getElementById] at h
  | cons e rest ih =>
    unfold getElementById at h
    by_cases he : e.id = id
    · rw [if_pos he] at h
      have hi : i = 0 := by simpa using h.symm
      subst hi
      exact ⟨e, by simp, he⟩
    · rw [if_neg he] at h
      cases hr : getElementById rest id with
      | none => rw [hr] at h; simp at h
      | some k =>
        rw [hr] at h
        have hi : i = k + 1 := by simpa using h.symm
        subst hi
        obtain ⟨x, hx, hid⟩ := ih hr
        exact ⟨x, by simpa using hx, hid⟩

theorem getElementById_ne {doc : Document} {id1 id2 : String} {i j : Nat}
    (h1 : getElementById doc id1 = some i) (h2 : getElementById doc id2 = some j)
    (hne : id1 ≠ id2) : i ≠ j := by
  intro hij
  subst hij
  obtain ⟨e1, he1, hid1⟩ := getElementById_some h1
  obtain ⟨e2, he2, hid2⟩ := getElementById_some h2
  rw [he1] at he2
  have : e1 = e2 := by simpa using he2
  subst this
  exact hne (hid1.symm.trans hid2)

theorem getElem?_foldl_uncheck (l : List Nat) (d : Document) (j : Nat) :
    (l.foldl (fun d checkbox => setChecked d checkbox false) d)[j]? =
      if j ∈ l then (d[j]?).map (fun e => { e with checked := false }) else d[j]? := by
  induction l generalizing d with
  | nil => simp
  | cons c l ih =>
    rw [List.foldl_cons, ih, getElem?_setChecked]
    by_cases hjc : j = c
    · subst hjc
      by_cases hjl : j ∈ l
      · cases d[j]? <;> simp [hjl]
      · simp [hjl]
    · by_cases hjl : j ∈ l
      · simp [hjl, hjc]
      · simp [hjl, hjc]

theorem sameFrame_foldl_uncheck (l : List Nat) (d : Document) :
    SameFrame (l.foldl (fun d checkbox => setChecked d checkbox false) d) d := by
  induction l generalizing d with
  | nil => exact SameFrame.refl d
  | cons c l ih =>
    rw [List.foldl_cons]
    exact (ih _).trans (sameFrame_setChecked d c false)

theorem displayOf_eq {doc : Document} {i : Nat} {e : Element} (h : doc[i]? = some e) :
    displayOf doc i = e.display := by
  simp [displayOf, h]

/-- A checkbox below the element that getElementById finds for meal_options is selected by
the selector of line 22. -/
theorem mem_query_of_isCheckboxInside {doc : Document} {m c : Nat}
    (hm : getElementById doc "meal_options" = some m)
    (hc : isCheckboxInside doc m c = true) :
    c ∈ querySelectorAll doc mealCheckboxSelector := by
  obtain ⟨em, hem, hid⟩ := getElementById_some hm
  unfold isCheckboxInside at hc
  cases hce : doc[c]? with
  | none => rw [hce] at hc; simp at hc
  | some e =>
    rw [hce] at hc
    simp only [Bool.and_eq_true, decide_eq_true_eq] at hc
    obtain ⟨⟨hn, ht⟩, hanc⟩ := hc
    obtain ⟨hlt, _⟩ := List.getElem?_eq_some.mp hce
    unfold querySelectorAll
    rw [List.mem_filter, List.mem_range]
    refine ⟨hlt, ?_⟩
    simp only [mealCheckboxSelector, Selector.test, hce, Bool.and_eq_true, List.any_eq_true]
    refine ⟨by simp [Compound.test, hn, ht], m, hanc, ?_⟩
    simp [hem, Compound.test, hid]

/-! ## Lemmas on the handlers -/

theorem statusComingChange_checked (m this : Nat) (doc : Document)
    (h : isChecked doc this = true) :
    statusComingChange (some m) this doc = .ok (setDisplay doc m "block") := by
  simp [statusComingChange, h, setStyleDisplay]

theorem statusNotComingChange_checked (m this : Nat) (doc : Document)
    (h : isChecked doc this = true) :
    statusNotComingChange (some m) this doc =
      .ok ((querySelectorAll doc mealCheckboxSelector).foldl
        (fun d checkbox => setChecked d checkbox false) (setDisplay doc m "none")) := by
  simp [statusNotComingChange, h, setStyleDisplay,
    querySelectorAll_congr (sameFrame_setDisplay doc m "none")]

/-- The document the not-coming listener leaves: the panel is hidden, every checkbox below
it is unchecked, and nothing but checked and style.display has changed. -/
theorem notComing_result {doc : Document} {m : Nat}
    (hm : getElementById doc "meal_options" = some m) :
    let D := (querySelectorAll doc mealCheckboxSelector).foldl
      (fun d checkbox => setChecked d checkbox false) (setDisplay doc m "none")
    SameFrame D doc ∧ displayOf D m = "none" ∧
      ∀ c, isCheckboxInside D m c = true → isChecked D c = false := by
  intro D
  have hframe : SameFrame D doc :=
    (sameFrame_foldl_uncheck _ _).trans (sameFrame_setDisplay doc m "none")
  obtain ⟨em, hem, _⟩ := getElementById_some hm
  refine ⟨hframe, ?_, ?_⟩
  · have hD : D[m]? = _ := getElem?_foldl_uncheck _ (setDisplay doc m "none") m
    rw [getElem?_setDisplay, if_pos rfl, hem] at hD
    by_cases hq : m ∈ querySelectorAll doc mealCheckboxSelector
    · rw [if_pos hq] at hD
      rw [displayOf_eq hD]
    · rw [if_neg hq] at hD
      rw [displayOf_eq hD]
  · intro c hc
    rw [isCheckboxInside_congr hframe] at hc
    have hq := mem_query_of_isCheckboxInside hm hc
    have hD : D[c]? = _ := getElem?_foldl_uncheck _ (setDisplay doc m "none") c
    rw [if_pos hq] at hD
    unfold isChecked
    rw [hD]
    cases (setDisplay doc m "none")[c]? <;> rfl

theorem coming_result {doc : Document} {m : Nat}
    (hm : getElementById doc "meal_options" = some m) :
    SameFrame (setDisplay doc m "block") doc ∧ displayOf (setDisplay doc m "block") m = "block" ∧
      ∀ c, c ≠ m → isChecked (setDisplay doc m "block") c = isChecked doc c := by
  obtain ⟨em, hem, _⟩ := getElementById_some hm
  refine ⟨sameFrame_setDisplay doc m "block", ?_, ?_⟩
  · have hD := getElem?_setDisplay doc m m "block"
    rw [if_pos rfl, hem] at hD
    rw [displayOf_eq hD]
  · intro c hc
    unfold isChecked
    rw [getElem?_setDisplay, if_neg hc]

theorem foldl_setTimeout (l : List Nat) (p : Page) :
    l.foldl (fun q alert => setTimeout q alert 5000) p =
      { p with timers := p.timers ++ l.map (fun a => ⟨5000, p.clock + 5000, a⟩) } := by
  induction l generalizing p with
  | nil => simp
  | cons a l ih =>
    rw [List.foldl_cons, ih]
    simp [setTimeout]

theorem attendanceToggle_present (p : Page) {sc nc mo : Nat}
    (hsc : getElementById p.document "status_coming" = some sc)
    (hnc : getElementById p.document "status_not_coming" = some nc)
    (hmo : getElementById p.document "meal_options" = some mo) :
    attendanceToggle p = .ok { p with
      document := setDisplay p.document mo "none",
      listeners := p.listeners ++ [⟨sc, "change", .onStatusComing (some mo)⟩,
        ⟨nc, "change", .onStatusNotComing (some mo)⟩] } := by
  simp [attendanceToggle, hsc, hnc, hmo, setStyleDisplay, addEventListener]

theorem attendanceToggle_absent (p : Page)
    (h : getElementById p.document "status_coming" = none ∨
      getElementById p.document "status_not_coming" = none ∨
      getElementById p.document "meal_options" = none) :
    attendanceToggle p = .ok p := by
  unfold attendanceToggle
  rcases h with h | h | h <;> simp [h]

theorem domContentLoaded_present (doc : Document) {sc nc mo : Nat}
    (hsc : getElementById doc "status_coming" = some sc)
    (hnc : getElementById doc "status_not_coming" = some nc)
    (hmo : getElementById doc "meal_options" = some mo) :
    domContentLoaded (Page.fresh doc) = .ok ⟨setDisplay doc mo "none",
      [⟨sc, "change", .onStatusComing (some mo)⟩, ⟨nc, "change", .onStatusNotComing (some mo)⟩],
      ["confirmAllReset", "confirmDateReset"],
      (querySelectorAll doc alertSelector).map (fun a => ⟨5000, 5000, a⟩), 0, [], [], []⟩ := by
  unfold domContentLoaded
  rw [attendanceToggle_present (Page.fresh doc) hsc hnc hmo]
  simp [flashAutoDismiss, defineResetFunctions, foldl_setTimeout, Page.fresh,
    querySelectorAll_congr (sameFrame_setDisplay doc mo "none")]

theorem domContentLoaded_absent (doc : Document)
    (h : getElementById doc "status_coming" = none ∨
      getElementById doc "status_not_coming" = none ∨
      getElementById doc "meal_options" = none) :
    domContentLoaded (Page.fresh doc) = .ok ⟨doc, [],
      ["confirmAllReset", "confirmDateReset"],
      (querySelectorAll doc alertSelector).map (fun a => ⟨5000, 5000, a⟩), 0, [], [], []⟩ := by
  unfold domContentLoaded
  rw [attendanceToggle_absent (Page.fresh doc) h]
  simp [flashAutoDismiss, defineResetFunctions, foldl_setTimeout, Page.fresh]

theorem setDisplay_idem (d : Document) (m : Nat) (v : String) :
    setDisplay (setDisplay d m v) m v = setDisplay d m v := by
  apply List.ext_getElem?
  intro j
  rw [getElem?_setDisplay, getElem?_setDisplay]
  by_cases hj : j = m
  · simp only [hj, if_true]
    cases d[m]? <;> rfl
  · simp [hj]

theorem notComing_idem (d : Document) (m : Nat) (l : List Nat) :
    l.foldl (fun d checkbox => setChecked d checkbox false)
        (setDisplay (l.foldl (fun d checkbox => setChecked d checkbox false)
          (setDisplay d m "none")) m "none") =
      l.foldl (fun d checkbox => setChecked d checkbox false) (setDisplay d m "none") := by
  apply List.ext_getElem?
  intro j
  rw [getElem?_foldl_uncheck, getElem?_setDisplay, getElem?_foldl_uncheck, getElem?_setDisplay]
  rcases eq_or_ne j m with rfl | hj
  · cases hd : d[j]? with
    | none => by_cases hl : j ∈ l <;> simp [hl]
    | some e => by_cases hl : j ∈ l <;> simp [hl]
  · cases hd : d[j]? with
    | none => by_cases hl : j ∈ l <;> simp [hj, hl]
    | some e => by_cases hl : j ∈ l <;> simp [hj, hl]

theorem dispatch_coming (p : Page) {sc nc mo : Nat} (hne : sc ≠ nc)
    (hl : p.listeners = [⟨sc, "change", .onStatusComing (some mo)⟩,
      ⟨nc, "change", .onStatusNotComing (some mo)⟩])
    (hchk : isChecked p.document sc = true) :
    dispatchEvent p sc "change" =
      .ok { p with document := setDisplay p.document mo "block" } := by
  have hne2 : ¬ nc = sc := fun h => hne h.symm
  simp [dispatchEvent, hl, List.filter, hne2, runListeners, Callback.run,
    statusComingChange_checked mo sc p.document hchk]

theorem dispatch_notComing (p : Page) {sc nc mo : Nat} (hne : sc ≠ nc)
    (hl : p.listeners = [⟨sc, "change", .onStatusComing (some mo)⟩,
      ⟨nc, "change", .onStatusNotComing (some mo)⟩])
    (hchk : isChecked p.document nc = true) :
    dispatchEvent p nc "change" =
      .ok { p with document := ((querySelectorAll p.document mealCheckboxSelector).foldl
        (fun d checkbox => setChecked d checkbox false) (setDisplay p.document mo "none")) } := by
  simp [dispatchEvent, hl, List.filter, hne, runListeners, Callback.run,
    statusNotComingChange_checked mo nc p.document hchk]

theorem dispatch_unchecked (p : Page) {sc nc mo : Nat} (t : Nat)
    (hl : p.listeners = [⟨sc, "change", .onStatusComing (some mo)⟩,
      ⟨nc, "change", .onStatusNotComing (some mo)⟩])
    (hchk : isChecked p.document t = false) :
    dispatchEvent p t "change" = .ok p := by
  obtain ⟨d, ls, w, ts, ck, dg, sb, cl⟩ := p
  simp only at hl hchk
  subst hl
  by_cases h1 : sc = t <;> by_cases h2 : nc = t <;>
    simp [dispatchEvent, List.filter, h1, h2, runListeners, Callback.run,
      statusComingChange, statusNotComingChange, hchk]

theorem isChecked_setDisplay (d : Document) (m c : Nat) (v : String) :
    isChecked (setDisplay d m v) c = isChecked d c := by
  unfold isChecked
  rw [getElem?_setDisplay]
  by_cases hc : c = m
  · rw [if_pos hc]
    cases d[c]? <;> rfl
  · rw [if_neg hc]

/-! ## Lemmas on the timers -/

theorem foldl_closeAlert (ts : List Timer) (q : Page) :
    ts.foldl (fun q t => closeAlert q t.alert) q =
      { q with closed := q.closed ++ ts.map Timer.alert } := by
  induction ts generalizing q with
  | nil => simp
  | cons t ts ih =>
    rw [List.foldl_cons, ih]
    simp [closeAlert]

theorem filter_due (l : List Nat) (now : Nat) :
    (l.map (fun a => (⟨5000, 5000, a⟩ : Timer))).filter (fun t => decide (t.due ≤ now)) =
      if 5000 ≤ now then l.map (fun a => (⟨5000, 5000, a⟩ : Timer)) else [] := by
  by_cases h : 5000 ≤ now
  · rw [if_pos h]
    apply List.filter_eq_self.mpr
    intro t ht
    obtain ⟨a, _, rfl⟩ := List.mem_map.mp ht
    simpa using h
  · rw [if_neg h]
    apply List.filter_eq_nil_iff.mpr
    intro t ht
    obtain ⟨a, _, rfl⟩ := List.mem_map.mp ht
    simpa using h

theorem filter_not_due (l : List Nat) (now : Nat) :
    (l.map (fun a => (⟨5000, 5000, a⟩ : Timer))).filter (fun t => !decide (t.due ≤ now)) =
      if 5000 ≤ now then [] else l.map (fun a => (⟨5000, 5000, a⟩ : Timer)) := by
  by_cases h : 5000 ≤ now
  · rw [if_pos h]
    apply List.filter_eq_nil_iff.mpr
    intro t ht
    obtain ⟨a, _, rfl⟩ := List.mem_map.mp ht
    simpa using h
  · rw [if_neg h]
    apply List.filter_eq_self.mpr
    intro t ht
    obtain ⟨a, _, rfl⟩ := List.mem_map.mp ht
    simpa using h

/-- Once no timer is pending, the passing of time closes nothing more. -/
theorem closed_advance_idle (dts : List Nat) (p : Page) (ht : p.timers = []) :
    (dts.foldl advance p).closed = p.closed := by
  induction dts generalizing p with
  | nil => rfl
  | cons dt dts ih =>
    rw [List.foldl_cons, ih]
    · simp [advance, ht]
    · simp [advance, ht, foldl_closeAlert]

/-- While the timers of the load handler are pending, the alerts closed after any passing
of time are none before the clock reaches 5000 and all of them, once each, from then on. -/
theorem closed_advance_pending (l : List Nat) (dts : List Nat) (p : Page)
    (ht : p.timers = l.map (fun a => (⟨5000, 5000, a⟩ : Timer)))
    (hc : p.closed = []) (hk : p.clock < 5000) :
    (dts.foldl advance p).closed = if p.clock + dts.sum < 5000 then [] else l := by
  induction dts generalizing p with
  | nil => simp [hc, hk]
  | cons dt dts ih =>
    rw [List.foldl_cons, List.sum_cons]
    by_cases h : 5000 ≤ p.clock + dt
    · have hfire : ¬ (p.clock + (dt + dts.sum) < 5000) := by omega
      rw [if_neg hfire, closed_advance_idle]
      · simp [advance, ht, filter_due, h, foldl_closeAlert, hc, Function.comp_def]
      · simp [advance, ht, filter_due, filter_not_due, h, foldl_closeAlert]
    · have hstep : advance p dt = { p with clock := p.clock + dt } := by
        simp [advance, ht, filter_due, filter_not_due, h]
      rw [hstep, ih]
      · simp only [Nat.add_assoc]
      · exact ht
      · exact hc
      · simp only
        omega

theorem mem_querySelectorAll_alert (doc : Document) (a : Nat) :
    a ∈ querySelectorAll doc alertSelector ↔ ∃ e, doc[a]? = some e ∧ "alert" ∈ e.classList := by
  unfold querySelectorAll
  rw [List.mem_filter, List.mem_range]
  constructor
  · rintro ⟨hlt, ht⟩
    refine ⟨doc[a], List.getElem?_eq_some.mpr ⟨hlt, rfl⟩, ?_⟩
    have hget : doc[a]? = some doc[a] := List.getElem?_eq_some.mpr ⟨hlt, rfl⟩
    simpa [alertSelector, Selector.test, hget, Compound.test] using ht
  · rintro ⟨e, he, hcl⟩
    obtain ⟨hlt, _⟩ := List.getElem?_eq_some.mp he
    exact ⟨hlt, by simp [alertSelector, Selector.test, he, Compound.test, hcl]⟩

/-- The load handler returns on every document, with one timer per alert. -/
theorem domContentLoaded_timers (doc : Document) :
    ∃ p0, domContentLoaded (Page.fresh doc) = .ok p0 ∧
      p0.timers = (querySelectorAll doc alertSelector).map (fun a => ⟨5000, 5000, a⟩) ∧
      p0.closed = [] ∧ p0.clock = 0 := by
  cases hsc : getElementById doc "status_coming" with
  | none => exact ⟨_, domContentLoaded_absent doc (Or.inl hsc), rfl, rfl, rfl⟩
  | some sc =>
    cases hnc : getElementById doc "status_not_coming" with
    | none => exact ⟨_, domContentLoaded_absent doc (Or.inr (Or.inl hnc)), rfl, rfl, rfl⟩
    | some nc =>
      cases hmo : getElementById doc "meal_options" with
      | none => exact ⟨_, domContentLoaded_absent doc (Or.inr (Or.inr hmo)), rfl, rfl, rfl⟩
      | some mo => exact ⟨_, domContentLoaded_present doc hsc hnc hmo, rfl, rfl, rfl⟩

/-! ## Lemmas on the user events -/

theorem isChecked_setChecked_self (d : Document) (i : Nat) (b : Bool) {e : Element}
    (he : d[i]? = some e) : isChecked (setChecked d i b) i = b := by
  unfold isChecked
  rw [getElem?_setChecked, if_pos rfl, he]
  rfl

theorem isChecked_setChecked_ne (d : Document) (i c : Nat) (b : Bool) (h : c ≠ i) :
    isChecked (setChecked d i b) c = isChecked d c := by
  unfold isChecked
  rw [getElem?_setChecked, if_neg h]

theorem isRadio_congr {d1 d2 : Document} (h : SameFrame d1 d2) (i : Nat) :
    isRadio d1 i = isRadio d2 i := by
  rcases sameFrame_lookup h i with ⟨h1, h2⟩ | ⟨e1, e2, h1, h2, he⟩
  · simp [isRadio, h1, h2]
  · have hn : e1.localName = e2.localName := Element.frame_localName he
    have ht : e1.type = e2.type := Element.frame_type he
    simp [isRadio, h1, h2, hn, ht]

theorem radioFixture_congr {d1 d2 : Document} (h : SameFrame d1 d2) {sc nc mo : Nat}
    (hf : RadioFixture d2 sc nc mo) : RadioFixture d1 sc nc mo := by
  obtain ⟨hsc, hnc, hmo, hrs, hrn⟩ := hf
  refine ⟨?_, ?_, ?_, ?_, ?_⟩
  · rw [getElementById_congr h]; exact hsc
  · rw [getElementById_congr h]; exact hnc
  · rw [getElementById_congr h]; exact hmo
  · rw [isRadio_congr h]; exact hrs
  · rw [isRadio_congr h]; exact hrn

/-- A radio input is no checkbox. -/
theorem ne_of_isCheckboxInside_of_isRadio {d : Document} {m c r : Nat}
    (hc : isCheckboxInside d m c = true) (hr : isRadio d r = true) : c ≠ r := by
  intro hcr
  subst hcr
  unfold isCheckboxInside at hc
  unfold isRadio at hr
  cases he : d[c]? with
  | none => rw [he] at hc; simp at hc
  | some e =>
    rw [he] at hc hr
    simp only [Bool.and_eq_true, decide_eq_true_eq] at hc hr
    have : "checkbox" = "radio" := hc.1.2.symm.trans hr.2
    exact absurd this (by decide)

theorem sameFrame_select (d : Document) (a b m : Nat) (v : String) :
    SameFrame (setDisplay (setChecked (setChecked d a true) b false) m v) d :=
  (sameFrame_setDisplay _ m v).trans
    ((sameFrame_setChecked _ b false).trans (sameFrame_setChecked d a true))

/-- The coming choice on a wired page: no exception; the panel is shown, the coming control
is checked and the not-coming control is not, and no checkbox of the panel changes. -/
theorem step_selectComing {p : Page} {sc nc mo : Nat} (hw : Wired sc nc mo p) :
    ∃ q, UserEvent.step p .selectComing = .ok q ∧ Wired sc nc mo q ∧
      SameFrame q.document p.document ∧
      displayOf q.document mo = "block" ∧ isChecked q.document nc = false ∧
      ∀ c, isCheckboxInside p.document mo c = true →
        isChecked q.document c = isChecked p.document c := by
  obtain ⟨hl, hsc, hnc, hmo, hrs, hrn⟩ := hw
  have hne : sc ≠ nc := getElementById_ne hsc hnc (by decide)
  obtain ⟨es, hes, _⟩ := getElementById_some hsc
  obtain ⟨en, hen, _⟩ := getElementById_some hnc
  have hen1 : ∃ e, (setChecked p.document sc true)[nc]? = some e := by
    rw [getElem?_setChecked, if_neg (Ne.symm hne)]; exact ⟨en, hen⟩
  obtain ⟨en1, hen1⟩ := hen1
  have hchk : isChecked (setChecked (setChecked p.document sc true) nc false) sc = true := by
    rw [isChecked_setChecked_ne _ _ _ _ hne, isChecked_setChecked_self _ _ _ hes]
  have hframe := sameFrame_select p.document sc nc mo "block"
  have hfix : RadioFixture (setDisplay (setChecked (setChecked p.document sc true) nc false)
      mo "block") sc nc mo := radioFixture_congr hframe ⟨hsc, hnc, hmo, hrs, hrn⟩
  have hmo1 : getElementById (setChecked (setChecked p.document sc true) nc false)
      "meal_options" = some mo := by
    rw [getElementById_congr ((sameFrame_setChecked _ nc false).trans
      (sameFrame_setChecked p.document sc true))]
    exact hmo
  refine ⟨{ p with document :=
      (setDisplay (setChecked (setChecked p.document sc true) nc false) mo "block") },
    ?_, ⟨hl, hfix⟩, hframe, (coming_result hmo1).2.1, ?_, ?_⟩
  · simp only [UserEvent.step, selectRadio, hsc, hnc]
    exact dispatch_coming _ hne hl hchk
  · show isChecked (setDisplay _ mo "block") nc = false
    rw [isChecked_setDisplay, isChecked_setChecked_self _ _ _ hen1]
  · intro c hc
    have h1 : c ≠ sc := ne_of_isCheckboxInside_of_isRadio hc hrs
    have h2 : c ≠ nc := ne_of_isCheckboxInside_of_isRadio hc hrn
    show isChecked (setDisplay _ mo "block") c = _
    rw [isChecked_setDisplay, isChecked_setChecked_ne _ _ _ _ h2,
      isChecked_setChecked_ne _ _ _ _ h1]

/-- The not-coming choice on a wired page: no exception; the panel is hidden and every
checkbox inside it is unchecked. -/
theorem step_selectNotComing {p : Page} {sc nc mo : Nat} (hw : Wired sc nc mo p) :
    ∃ q, UserEvent.step p .selectNotComing = .ok q ∧ Wired sc nc mo q ∧
      displayOf q.document mo = "none" ∧
      ∀ c, isCheckboxInside q.document mo c = true → isChecked q.document c = false := by
  obtain ⟨hl, hsc, hnc, hmo, hrs, hrn⟩ := hw
  have hne : sc ≠ nc := getElementById_ne hsc hnc (by decide)
  obtain ⟨en, hen, _⟩ := getElementById_some hnc
  have hchk : isChecked (setChecked (setChecked p.document nc true) sc false) nc = true := by
    rw [isChecked_setChecked_ne _ _ _ _ (Ne.symm hne), isChecked_setChecked_self _ _ _ hen]
  have hframe2 : SameFrame (setChecked (setChecked p.document nc true) sc false) p.document :=
    (sameFrame_setChecked _ sc false).trans (sameFrame_setChecked p.document nc true)
  have hmo1 : getElementById (setChecked (setChecked p.document nc true) sc false)
      "meal_options" = some mo := by
    rw [getElementById_congr hframe2]; exact hmo
  obtain ⟨hframe, hdisp, hall⟩ := notComing_result hmo1
  refine ⟨{ p with document :=
      ((querySelectorAll (setChecked (setChecked p.document nc true) sc false)
        mealCheckboxSelector).foldl (fun d checkbox => setChecked d checkbox false)
        (setDisplay (setChecked (setChecked p.document nc true) sc false) mo "none")) },
    ?_, ⟨hl, radioFixture_congr (hframe.trans hframe2) ⟨hsc, hnc, hmo, hrs, hrn⟩⟩,
    hdisp, hall⟩
  simp only [UserEvent.step, selectRadio, hsc, hnc]
  exact dispatch_notComing _ hne hl hchk

/-- A click on a meal checkbox keeps the page wired and keeps the consistency rule. -/
theorem step_clickMeal {p : Page} {sc nc mo : Nat} (hw : Wired sc nc mo p) (c : Nat) :
    Wired sc nc mo (toggleMeal p c) ∧
      (Consistent nc mo p.document → Consistent nc mo (toggleMeal p c).document) := by
  obtain ⟨hl, hsc, hnc, hmo, hrs, hrn⟩ := hw
  unfold toggleMeal
  simp only [hmo]
  by_cases hg : (isCheckboxInside p.document mo c &&
      decide (displayOf p.document mo ≠ "none")) = true
  · rw [if_pos hg]
    simp only [Bool.and_eq_true, decide_eq_true_eq] at hg
    obtain ⟨hin, hshown⟩ := hg
    refine ⟨⟨hl, radioFixture_congr (sameFrame_setChecked _ _ _) ⟨hsc, hnc, hmo, hrs, hrn⟩⟩, ?_⟩
    intro hcons hchk
    have hcn : c ≠ nc := ne_of_isCheckboxInside_of_isRadio hin hrn
    have hchk0 : isChecked p.document nc = true := by
      have := isChecked_setChecked_ne p.document c nc (!isChecked p.document c) (Ne.symm hcn)
      rw [← this]
      exact hchk
    exact absurd (hcons hchk0).1 hshown
  · rw [if_neg hg]
    exact ⟨⟨hl, hsc, hnc, hmo, hrs, hrn⟩, fun h => h⟩

/-- From a wired page, every sequence of user events runs without exception, and the state
it ends in is consistent when the starting state is, or when the sequence holds an
attendance choice. -/
theorem runEvents_consistent {sc nc mo : Nat} (es : List UserEvent) (p : Page)
    (hw : Wired sc nc mo p)
    (h : Consistent nc mo p.document ∨ ∃ e, e ∈ es ∧ e.isAttendance = true) :
    ∃ q, runEvents es p = .ok q ∧ Wired sc nc mo q ∧ Consistent nc mo q.document := by
  induction es generalizing p with
  | nil =>
    rcases h with h | ⟨e, he, _⟩
    · exact ⟨p, rfl, hw, h⟩
    · simp at he
  | cons e es ih =>
    cases e with
    | selectComing =>
      obtain ⟨q1, hstep, hw1, _, _, hn, _⟩ := step_selectComing hw
      have hc1 : Consistent nc mo q1.document := by
        intro hchk
        rw [hn] at hchk
        simp at hchk
      obtain ⟨q, hq, hwq, hcq⟩ := ih q1 hw1 (Or.inl hc1)
      exact ⟨q, by simp only [runEvents, hstep, hq], hwq, hcq⟩
    | selectNotComing =>
      obtain ⟨q1, hstep, hw1, hd, hall⟩ := step_selectNotComing hw
      obtain ⟨q, hq, hwq, hcq⟩ := ih q1 hw1 (Or.inl (fun _ => ⟨hd, hall⟩))
      exact ⟨q, by simp only [runEvents, hstep, hq], hwq, hcq⟩
    | clickMeal c =>
      obtain ⟨hw1, hkeep⟩ := step_clickMeal hw c
      have h1 : Consistent nc mo (toggleMeal p c).document ∨
          ∃ e, e ∈ es ∧ e.isAttendance = true := by
        rcases h with h | ⟨e, he, ha⟩
        · exact Or.inl (hkeep h)
        · rcases List.mem_cons.mp he with rfl | he
          · simp [UserEvent.isAttendance] at ha
          · exact Or.inr ⟨e, he, ha⟩
      obtain ⟨q, hq, hwq, hcq⟩ := ih _ hw1 h1
      exact ⟨q, by simp only [runEvents, UserEvent.step, hq], hwq, hcq⟩

/-! ## The claims -/

/-- C1: with the three elements present at load, from every prior page state (the loaded
document with any display and checked values) a change event on status_not_coming while it
is checked is handled without exception and leaves the panel with display none and every
checkbox inside meal_options unchecked. -/
theorem notComing_change_hides_and_unchecks (doc dom : Document) (sc nc mo : Nat)
    (hsc : getElementById doc "status_coming" = some sc)
    (hnc : getElementById doc "status_not_coming" = some nc)
    (hmo : getElementById doc "meal_options" = some mo)
    (hdom : SameFrame dom doc)
    (hchk : isChecked dom nc = true) :
    ∃ p0 p1, domContentLoaded (Page.fresh doc) = .ok p0 ∧
      dispatchEvent { p0 with document := dom } nc "change" = .ok p1 ∧
      displayOf p1.document mo = "none" ∧
      ∀ c, isCheckboxInside p1.document mo c = true → isChecked p1.document c = false := by
  have hne : sc ≠ nc := getElementById_ne hsc hnc (by decide)
  have hmo2 : getElementById dom "meal_options" = some mo := by
    rw [getElementById_congr hdom]; exact hmo
  exact ⟨_, _, domContentLoaded_present doc hsc hnc hmo, dispatch_notComing _ hne rfl hchk,
    (notComing_result hmo2).2⟩

/-- The not-coming change event on the sample page, where a meal checkbox is checked. -/
theorem notComing_change_hides_and_unchecks_witness :
    ∃ p0 p1, domContentLoaded (Page.fresh samplePage) = .ok p0 ∧
      dispatchEvent { p0 with document := samplePage } 2 "change" = .ok p1 ∧
      displayOf p1.document 3 = "none" ∧
      ∀ c, isCheckboxInside p1.document 3 c = true → isChecked p1.document c = false :=
  notComing_change_hides_and_unchecks samplePage samplePage 1 2 3 (by decide) (by decide)
    (by decide) (SameFrame.refl _) (by decide)

/-- C2: with the three elements present at load, from every prior page state a change event
on status_coming while it is checked is handled without exception and leaves the panel with
display block. -/
theorem coming_change_shows_panel (doc dom : Document) (sc nc mo : Nat)
    (hsc : getElementById doc "status_coming" = some sc)
    (hnc : getElementById doc "status_not_coming" = some nc)
    (hmo : getElementById doc "meal_options" = some mo)
    (hdom : SameFrame dom doc)
    (hchk : isChecked dom sc = true) :
    ∃ p0 p1, domContentLoaded (Page.fresh doc) = .ok p0 ∧
      dispatchEvent { p0 with document := dom } sc "change" = .ok p1 ∧
      displayOf p1.document mo = "block" := by
  have hne : sc ≠ nc := getElementById_ne hsc hnc (by decide)
  have hmo2 : getElementById dom "meal_options" = some mo := by
    rw [getElementById_congr hdom]; exact hmo
  exact ⟨_, _, domContentLoaded_present doc hsc hnc hmo, dispatch_coming _ hne rfl hchk,
    (coming_result hmo2).2.1⟩

/-- The coming change event on the sample page with the coming radio checked. -/
theorem coming_change_shows_panel_witness :
    ∃ p0 p1, domContentLoaded (Page.fresh samplePage) = .ok p0 ∧
      dispatchEvent { p0 with document := samplePageComing } 1 "change" = .ok p1 ∧
      displayOf p1.document 3 = "block" :=
  coming_change_shows_panel samplePage samplePageComing 1 2 3 (by decide) (by decide)
    (by decide)
    ((sameFrame_setChecked _ 2 false).trans (sameFrame_setChecked _ 1 true))
    (by decide)

/-- C3: on any document holding the three elements, whatever its display and checked
values, the load handler returns and leaves the panel with display none. -/
theorem load_hides_panel (doc : Document) (sc nc mo : Nat)
    (hsc : getElementById doc "status_coming" = some sc)
    (hnc : getElementById doc "status_not_coming" = some nc)
    (hmo : getElementById doc "meal_options" = some mo) :
    ∃ p0, domContentLoaded (Page.fresh doc) = .ok p0 ∧ displayOf p0.document mo = "none" := by
  refine ⟨_, domContentLoaded_present doc hsc hnc hmo, ?_⟩
  obtain ⟨em, hem, _⟩ := getElementById_some hmo
  have hD := getElem?_setDisplay doc mo mo "none"
  rw [if_pos rfl, hem] at hD
  exact displayOf_eq hD

/-- The load handler on the sample page, whose panel is served with display block. -/
theorem load_hides_panel_witness :
    ∃ p0, domContentLoaded (Page.fresh samplePage) = .ok p0 ∧
      displayOf p0.document 3 = "none" :=
  load_hides_panel samplePage 1 2 3 (by decide) (by decide) (by decide)

/-- C4: when one of the three elements is missing, the toggle section returns the page
unchanged, and the whole load handler returns with no listener registered and the document
(display and checked values included) as it was. -/
theorem load_without_fixture (doc : Document)
    (h : getElementById doc "status_coming" = none ∨
      getElementById doc "status_not_coming" = none ∨
      getElementById doc "meal_options" = none) :
    attendanceToggle (Page.fresh doc) = .ok (Page.fresh doc) ∧
      ∃ p0, domContentLoaded (Page.fresh doc) = .ok p0 ∧ p0.listeners = [] ∧
        p0.document = doc :=
  ⟨attendanceToggle_absent _ h, _, domContentLoaded_absent doc h, rfl, rfl⟩

/-- The load handler on the admin page, which has the panel but neither radio. -/
theorem load_without_fixture_witness :
    attendanceToggle (Page.fresh sampleAdminPage) = .ok (Page.fresh sampleAdminPage) ∧
      ∃ p0, domContentLoaded (Page.fresh sampleAdminPage) = .ok p0 ∧ p0.listeners = [] ∧
        p0.document = sampleAdminPage :=
  load_without_fixture sampleAdminPage (Or.inl (by decide))

/-- C5: with resetAllForm present, confirmAllReset returns; it shows the one fixed message;
it submits resetAllForm once when the dialog is accepted and nothing when it is rejected;
apart from the dialog shown and the submission, the page state is unchanged. -/
theorem confirmAllReset_submits_iff_accepted (p : Page) (f : Nat) (answer : Bool)
    (hf : getElementById p.document "resetAllForm" = some f) :
    confirmAllReset answer p = .ok { p with
      dialogs := p.dialogs ++ [allResetMessage],
      submitted := p.submitted ++ (if answer = true then [f] else []) } := by
  cases answer
  · simp [confirmAllReset, confirm]
  · simp [confirmAllReset, confirm, submit, hf]

/-- An accepted reset of all dates on the sample page submits element 9, resetAllForm. -/
theorem confirmAllReset_submits_iff_accepted_witness :
    confirmAllReset true (Page.fresh samplePage) = .ok { Page.fresh samplePage with
      dialogs := (Page.fresh samplePage).dialogs ++ [allResetMessage],
      submitted := (Page.fresh samplePage).submitted ++ (if true = true then [9] else []) } :=
  confirmAllReset_submits_iff_accepted (Page.fresh samplePage) 9 true (by decide)

/-- C6: with resetCurrentForm present, for every date string confirmDateReset returns; the
message shown is the fixed text around the date; on acceptance the one form submitted is
the element of id resetCurrentForm, which is the element of no other id, and does not
depend on the date; on rejection nothing is submitted. -/
theorem confirmDateReset_submits_current_form (p : Page) (f : Nat) (date : String)
    (answer : Bool) (hf : getElementById p.document "resetCurrentForm" = some f) :
    confirmDateReset date answer p = .ok { p with
        dialogs := p.dialogs ++ ["Are you sure you want to reset attendance data for " ++ date ++
          " only? This action cannot be undone."],
        submitted := p.submitted ++ (if answer = true then [f] else []) } ∧
      ∀ id g, id ≠ "resetCurrentForm" → getElementById p.document id = some g → g ≠ f := by
  constructor
  · cases answer
    · simp [confirmDateReset, confirm, dateResetMessage]
    · simp [confirmDateReset, confirm, submit, hf, dateResetMessage]
  · intro id g hid hg
    exact getElementById_ne hg hf hid

/-- An accepted reset of one date on the sample page submits element 10, resetCurrentForm. -/
theorem confirmDateReset_submits_current_form_witness :
    confirmDateReset "2024-05-01" true (Page.fresh samplePage) = .ok { Page.fresh samplePage with
        dialogs := (Page.fresh samplePage).dialogs ++
          ["Are you sure you want to reset attendance data for " ++ "2024-05-01" ++
            " only? This action cannot be undone."],
        submitted := (Page.fresh samplePage).submitted ++ (if true = true then [10] else []) } ∧
      ∀ id g, id ≠ "resetCurrentForm" →
        getElementById (Page.fresh samplePage).document id = some g → g ≠ 10 :=
  confirmDateReset_submits_current_form (Page.fresh samplePage) 10 "2024-05-01" true
    (by decide)

/-- C10: with the three elements present at load, from every page state, handling
the change event of status_coming (checked) a second time leaves the state the first
handling produced, and likewise for status_not_coming (checked). -/
theorem change_twice_eq_once (doc dom : Document) (sc nc mo : Nat)
    (hsc : getElementById doc "status_coming" = some sc)
    (hnc : getElementById doc "status_not_coming" = some nc)
    (hmo : getElementById doc "meal_options" = some mo) :
    ∃ p0, domContentLoaded (Page.fresh doc) = .ok p0 ∧
      (isChecked dom sc = true →
        ∃ p1, dispatchEvent { p0 with document := dom } sc "change" = .ok p1 ∧
          dispatchEvent p1 sc "change" = .ok p1) ∧
      (isChecked dom nc = true →
        ∃ p1, dispatchEvent { p0 with document := dom } nc "change" = .ok p1 ∧
          dispatchEvent p1 nc "change" = .ok p1) := by
  have hne : sc ≠ nc := getElementById_ne hsc hnc (by decide)
  refine ⟨_, domContentLoaded_present doc hsc hnc hmo, ?_, ?_⟩
  · intro hchk
    refine ⟨_, dispatch_coming _ hne rfl hchk, ?_⟩
    rw [dispatch_coming _ hne rfl (by simpa [isChecked_setDisplay] using hchk)]
    simp [setDisplay_idem]
  · intro hchk
    refine ⟨_, dispatch_notComing _ hne rfl hchk, ?_⟩
    cases h2 : isChecked ((querySelectorAll dom mealCheckboxSelector).foldl
        (fun d checkbox => setChecked d checkbox false) (setDisplay dom mo "none")) nc with
    | false => exact dispatch_unchecked _ nc rfl h2
    | true =>
      rw [dispatch_notComing _ hne rfl h2]
      have hq := querySelectorAll_congr ((sameFrame_foldl_uncheck
        (querySelectorAll dom mealCheckboxSelector) (setDisplay dom mo "none")).trans
        (sameFrame_setDisplay dom mo "none")) mealCheckboxSelector
      simp only [hq, notComing_idem]

/-- Repeated change events on the sample page. -/
theorem change_twice_eq_once_witness :
    ∃ p0, domContentLoaded (Page.fresh samplePage) = .ok p0 ∧
      (isChecked samplePage 1 = true →
        ∃ p1, dispatchEvent { p0 with document := samplePage } 1 "change" = .ok p1 ∧
          dispatchEvent p1 1 "change" = .ok p1) ∧
      (isChecked samplePage 2 = true →
        ∃ p1, dispatchEvent { p0 with document := samplePage } 2 "change" = .ok p1 ∧
          dispatchEvent p1 2 "change" = .ok p1) :=
  change_twice_eq_once samplePage samplePage 1 2 3 (by decide) (by decide) (by decide)

/-- C9: on every document, with or without the attendance elements, the load handler
returns with exactly one pending timer per element of class alert, each of delay 5000 ms
and closing that element; the alerts are pairwise distinct; and however time passes, no
alert has been closed while less than 5000 ms have elapsed, and from then on each alert
has been closed exactly once and nothing else. -/
theorem flash_auto_dismiss (doc : Document) :
    ∃ p0, domContentLoaded (Page.fresh doc) = .ok p0 ∧
      p0.timers = (querySelectorAll doc alertSelector).map (fun a => ⟨5000, p0.clock + 5000, a⟩) ∧
      p0.timers.length = (querySelectorAll doc alertSelector).length ∧
      (querySelectorAll doc alertSelector).Nodup ∧
      (∀ a, a ∈ querySelectorAll doc alertSelector ↔
        ∃ e, doc[a]? = some e ∧ "alert" ∈ e.classList) ∧
      ∀ dts : List Nat, (dts.foldl advance p0).closed =
        if dts.sum < 5000 then [] else querySelectorAll doc alertSelector := by
  obtain ⟨p0, hload, ht, hc, hk⟩ := domContentLoaded_timers doc
  refine ⟨p0, hload, ?_, ?_, ?_, mem_querySelectorAll_alert doc, ?_⟩
  · rw [ht, hk]
  · rw [ht, List.length_map]
  · exact (List.nodup_range _).filter _
  · intro dts
    have h := closed_advance_pending _ dts p0 ht hc (by omega)
    rw [hk, Nat.zero_add] at h
    exact h

/-- C8: with the attendance fixture present at load, from every loaded page state (the
loaded document with any display and checked values) the sequence coming, not coming,
coming runs without exception and ends with the panel displayed (display block) and every
checkbox inside meal_options unchecked. -/
theorem coming_notComing_coming (doc dom : Document) (sc nc mo : Nat)
    (hf : RadioFixture doc sc nc mo) (hdom : SameFrame dom doc) :
    ∃ p0 p3, domContentLoaded (Page.fresh doc) = .ok p0 ∧
      runEvents [.selectComing, .selectNotComing, .selectComing]
        { p0 with document := dom } = .ok p3 ∧
      displayOf p3.document mo = "block" ∧
      ∀ c, isCheckboxInside p3.document mo c = true → isChecked p3.document c = false := by
  have hload := domContentLoaded_present doc hf.1 hf.2.1 hf.2.2.1
  have hw : Wired sc nc mo (Page.mk (dom)
      [⟨sc, "change", .onStatusComing (some mo)⟩, ⟨nc, "change", .onStatusNotComing (some mo)⟩]
      ["confirmAllReset", "confirmDateReset"]
      ((querySelectorAll doc alertSelector).map (fun a => ⟨5000, 5000, a⟩)) 0 [] [] []) :=
    ⟨rfl, radioFixture_congr hdom hf⟩
  obtain ⟨q1, h1, hw1, _⟩ := step_selectComing hw
  obtain ⟨q2, h2, hw2, _, hall⟩ := step_selectNotComing hw1
  obtain ⟨q3, h3, _, hfr, hd, _, hkeep⟩ := step_selectComing hw2
  refine ⟨_, q3, hload, ?_, hd, ?_⟩
  · simp only [runEvents, h1, h2, h3]
  · intro c hc
    rw [isCheckboxInside_congr hfr] at hc
    rw [hkeep c hc]
    exact hall c hc

/-- The three choices on the sample page. -/
theorem coming_notComing_coming_witness :
    ∃ p0 p3, domContentLoaded (Page.fresh samplePage) = .ok p0 ∧
      runEvents [.selectComing, .selectNotComing, .selectComing]
        { p0 with document := samplePageComing } = .ok p3 ∧
      displayOf p3.document 3 = "block" ∧
      ∀ c, isCheckboxInside p3.document 3 c = true → isChecked p3.document c = false :=
  coming_notComing_coming samplePage samplePageComing 1 2 3
    ⟨by decide, by decide, by decide, by decide, by decide⟩
    ((sameFrame_setChecked _ 2 false).trans (sameFrame_setChecked _ 1 true))

/-- C7, as the claim states it, fails: the sample page is loaded with the not-coming radio
and a meal checkbox both checked, and the load handler leaves that checkbox checked. -/
theorem consistent_fails_at_load :
    ¬ ∀ (doc : Document) (sc nc mo : Nat), RadioFixture doc sc nc mo →
      ∀ (es : List UserEvent) (p0 q : Page), domContentLoaded (Page.fresh doc) = .ok p0 →
        runEvents es p0 = .ok q → Consistent nc mo q.document := by
  intro h
  have hf : RadioFixture samplePage 1 2 3 :=
    ⟨by decide, by decide, by decide, by decide, by decide⟩
  have hc := h samplePage 1 2 3 hf [] _ _
    (domContentLoaded_present samplePage hf.1 hf.2.1 hf.2.2.1) rfl
  have h4 := (hc (by decide)).2 4 (by decide)
  exact absurd h4 (by decide)

/-- C7, amended: with the attendance fixture present at load, every sequence of user
events (attendance choices, and clicks on meal checkboxes while the panel is displayed)
runs without exception, and in the state it reaches, when the not-coming control is
checked the panel is hidden and every checkbox inside meal_options is unchecked, provided
the document was loaded consistent or the sequence holds an attendance choice. -/
theorem consistent_after_load (doc : Document) (sc nc mo : Nat)
    (hf : RadioFixture doc sc nc mo) (es : List UserEvent)
    (h : (isChecked doc nc = true →
        ∀ c, isCheckboxInside doc mo c = true → isChecked doc c = false) ∨
      ∃ e, e ∈ es ∧ e.isAttendance = true) :
    ∃ p0 q, domContentLoaded (Page.fresh doc) = .ok p0 ∧ runEvents es p0 = .ok q ∧
      Consistent nc mo q.document := by
  have hload := domContentLoaded_present doc hf.1 hf.2.1 hf.2.2.1
  have hfr := sameFrame_setDisplay doc mo "none"
  have hw : Wired sc nc mo (Page.mk (setDisplay doc mo "none")
      [⟨sc, "change", .onStatusComing (some mo)⟩, ⟨nc, "change", .onStatusNotComing (some mo)⟩]
      ["confirmAllReset", "confirmDateReset"]
      ((querySelectorAll doc alertSelector).map (fun a => ⟨5000, 5000, a⟩)) 0 [] [] []) :=
    ⟨rfl, radioFixture_congr hfr hf⟩
  have h0 : Consistent nc mo (setDisplay doc mo "none") ∨
      ∃ e, e ∈ es ∧ e.isAttendance = true := by
    rcases h with h | h
    · left
      intro hchk
      rw [isChecked_setDisplay] at hchk
      obtain ⟨em, hem, _⟩ := getElementById_some hf.2.2.1
      have hD := getElem?_setDisplay doc mo mo "none"
      rw [if_pos rfl, hem] at hD
      refine ⟨displayOf_eq hD, ?_⟩
      intro c hc
      rw [isCheckboxInside_congr hfr] at hc
      rw [isChecked_setDisplay]
      exact h hchk c hc
    · exact Or.inr h
  obtain ⟨q, hq, _, hcq⟩ := runEvents_consistent es _ hw h0
  exact ⟨_, q, hload, hq, hcq⟩

/-- The sample page after a coming choice, a click on the lunch checkbox and a not-coming choice. -/
theorem consistent_after_load_witness :
    ∃ p0 q, domContentLoaded (Page.fresh samplePage) = .ok p0 ∧
      runEvents [.selectComing, .clickMeal 5, .selectNotComing] p0 = .ok q ∧
      Consistent 2 3 q.document :=
  consistent_after_load samplePage 1 2 3
    ⟨by decide, by decide, by decide, by decide, by decide⟩
    [.selectComing, .clickMeal 5, .selectNotComing]
    (Or.inr ⟨.selectNotComing, by decide, rfl⟩)

end FoodTracking
